import Mathlib

/-!
Shallow embedding of the SME-Plug retrieval-and-verification pipeline
(`src/backend/app/graph.py`, `src/rag.py`, `src/config.py`, `src/main.py`).

Modelling conventions:
* Python dictionaries with optional keys become structures with `Option`
  fields; `state.get(k)` is field access, `state.get(k, d)`/`x or d` use the
  helpers below (Python string truthiness: `None` and `""` are falsy).
* Cosine distances and the similarity threshold are rationals (`Rat`); the
  code's floats carry no float-specific behaviour in any claim.
* Metadata values (document names, page numbers) are embedded by their
  printed string form; numeric formatting of trace details (Python's
  `:.4f`) is not reproduced character-for-character, only the fields the
  spec constrains (node names, statuses, answers, citations) are exact.
* The Chroma vector store and the chat model are external collaborators:
  they are modelled at the interface used by the code (a searchable
  document collection with a per-query distance function and a failure
  flag; a function from the two prompt messages to the answer text).
-/

namespace SMEPlug

/-- Python `a or b` for an optional string `a`, where both `None` and the
empty string are falsy (mirrors `md.get(k) or fallback`). -/
def orElseStr (a : Option String) (b : String) : String :=
  match a with
  | none => b
  | some s => if s = "" then b else s

/-- Index of the last `'.'` in a character list (Python `str.rfind('.')`),
accumulator-style. -/
def lastDotIdx : List Char → Nat → Option Nat → Option Nat
  | [], _, acc => acc
  | c :: cs, i, acc => lastDotIdx cs (i + 1) (if c = '.' then some i else acc)

/-- Splitting a character list at every occurrence of `sep` (the character
lists between separators, in order). -/
def splitChar (sep : Char) : List Char → List (List Char)
  | [] => [[]]
  | c :: cs =>
    match splitChar sep cs with
    | [] => [[]]
    | h :: t => if c = sep then [] :: h :: t else (c :: h) :: t

/-- Final component of a POSIX-style path with empty components dropped
(`pathlib.PurePath(p).name` for the plain relative paths the code builds). -/
def pathName (p : String) : String :=
  String.mk (((((splitChar '/' p.toList)).filter (fun c => c ≠ [])).getLast?).getD [])

/-- Python `pathlib.PurePath(p).stem`: the final path component without its
suffix; a dot in first or last position does not start a suffix. -/
def pathStem (p : String) : String :=
  let name := pathName p
  let cs := name.toList
  match lastDotIdx cs 0 none with
  | none => name
  | some i => if 0 < i ∧ i + 1 < cs.length then String.mk (cs.take i) else name

/-- Chunk metadata as written by ingestion and read by `rag.py` /
`graph.py`; every key may be absent. -/
structure Metadata where
  doc_name : Option String := none
  page_number : Option String := none
  page : Option String := none
  source : Option String := none
  domain : Option String := none
  deriving Repr, DecidableEq

/-- A LangChain `Document`: the chunk text plus its metadata. -/
structure Document where
  page_content : String := ""
  metadata : Metadata := {}
  deriving Repr, DecidableEq

/-- Citation label built for one document inside `compute_citations`
(`rag.py`): `doc_name` falls back to the stem of the `source` path (path
defaulting to "Unknown" when absent), the page falls back from
`page_number` to `page` to "?". -/
def citationLabel (doc : Document) : String :=
  let md := doc.metadata
  let doc_name := orElseStr md.doc_name (pathStem (md.source.getD "Unknown"))
  let page_number := orElseStr md.page_number (orElseStr md.page "?")
  "[Source: " ++ doc_name ++ ", Page " ++ page_number ++ "]"

/-- Loop of `compute_citations` (`rag.py`): walk the ranked documents in
order, emitting each label the first time it is seen; `seen` is the set of
labels already emitted. -/
def compute_citations_go (seen : List String) : List Document → List String
  | [] => []
  | doc :: rest =>
    let label := citationLabel doc
    if label ∈ seen then compute_citations_go seen rest
    else label :: compute_citations_go (label :: seen) rest

/-- Embedding of `compute_citations` (`rag.py`): unique citation strings in
first-seen order over the ranked documents. -/
def compute_citations (docs : List Document) : List String :=
  compute_citations_go [] docs

theorem mem_compute_citations_go {s : String} :
    ∀ (docs : List Document) (seen : List String),
      s ∈ compute_citations_go seen docs → ∃ d ∈ docs, s = citationLabel d := by
  intro docs
  induction docs with
  | nil => intro seen h; simp [compute_citations_go] at h
  | cons doc rest ih =>
    intro seen h
    simp only [compute_citations_go] at h
    by_cases hmem : citationLabel doc ∈ seen
    · simp only [hmem, if_pos] at h
      obtain ⟨d, hd, hs⟩ := ih seen h
      exact ⟨d, List.mem_cons_of_mem _ hd, hs⟩
    · simp only [hmem, if_neg, not_false_iff, List.mem_cons] at h
      rcases h with h | h
      · exact ⟨doc, List.mem_cons_self _ _, h⟩
      · obtain ⟨d, hd, hs⟩ := ih _ h
        exact ⟨d, List.mem_cons_of_mem _ hd, hs⟩

theorem compute_citations_go_spec :
    ∀ (docs : List Document) (seen : List String),
      (∀ s ∈ compute_citations_go seen docs, s ∉ seen) ∧
        (compute_citations_go seen docs).Nodup := by
  intro docs
  induction docs with
  | nil => intro seen; simp [compute_citations_go]
  | cons doc rest ih =>
    intro seen
    simp only [compute_citations_go]
    by_cases hmem : citationLabel doc ∈ seen
    · simp only [hmem, if_pos]
      exact ih seen
    · simp only [hmem, if_neg, not_false_iff]
      obtain ⟨hnotin, hnodup⟩ := ih (citationLabel doc :: seen)
      refine ⟨?_, ?_⟩
      · intro s hs
        rcases List.mem_cons.mp hs with h | h
        · exact h ▸ hmem
        · intro hcontra
          exact hnotin s h (List.mem_cons_of_mem _ hcontra)
      · refine List.nodup_cons.mpr ⟨?_, hnodup⟩
        intro hcontra
        exact hnotin _ hcontra (List.mem_cons_self _ _)

theorem compute_citations_go_eq_eraseDups_loop :
    ∀ (docs : List Document) (bs : List String),
      List.eraseDups.loop (docs.map citationLabel) bs =
        bs.reverse ++ compute_citations_go bs docs := by
  intro docs
  induction docs with
  | nil => intro bs; simp [List.eraseDups.loop, compute_citations_go]
  | cons doc rest ih =>
    intro bs
    simp only [List.map_cons, List.eraseDups.loop, compute_citations_go]
    by_cases hmem : citationLabel doc ∈ bs
    · have helem : bs.elem (citationLabel doc) = true := List.elem_eq_true_of_mem hmem
      simp only [helem, hmem, if_pos]
      exact ih bs
    · have helem : bs.elem (citationLabel doc) = false := by
        rw [Bool.eq_false_iff]
        intro hcontra
        exact hmem (List.mem_of_elem_eq_true hcontra)
      simp only [helem, hmem, if_neg, not_false_iff]
      rw [ih (citationLabel doc :: bs)]
      simp [List.append_assoc]

theorem compute_citations_eq_eraseDups (docs : List Document) :
    compute_citations docs = (docs.map citationLabel).eraseDups := by
  rw [List.eraseDups, compute_citations_go_eq_eraseDups_loop]
  simp [compute_citations]

/-- One trace entry appended by `_append_step` (`graph.py`). -/
structure Step where
  node : String
  status : String
  detail : String
  deriving Repr, DecidableEq

/-- The shared LangGraph state `SMEState` (`graph.py`), a dictionary whose
keys may all be absent; `plugin_mode` is the extra key written by
`ask_expert` (`main.py`) and read back with defaults in `graph.py`. -/
structure SMEState where
  question : String := ""
  plugin_mode : Option String := none
  retrieved_docs : Option (List Document) := none
  scores : Option (List Rat) := none
  context_ok : Option Bool := none
  answer : Option String := none
  citations : Option (List String) := none
  steps : Option (List Step) := none
  deriving Repr, DecidableEq

/-- Embedding of `_append_step` (`graph.py`): copy the present trace (an
absent or `None` `steps` key reads as the empty list) and append one entry. -/
def append_step (state : SMEState) (node status detail : String) : SMEState :=
  { state with steps := some ((state.steps.getD []) ++ [⟨node, status, detail⟩]) }

/-- The `Settings` fields the pipeline reads (`config.py`), with their
defaults: `top_k = 5` and `similarity_threshold = 0.5`. -/
structure Settings where
  top_k : Nat := 5
  similarity_threshold : Rat := 1/2
  deriving Repr, DecidableEq

/-- Model of the Chroma vector store collaborator: the indexed documents, a
per-query distance function (lower is more similar), and a flag for an
unreachable index whose search raises. -/
structure ChromaModel where
  docs : List Document
  dist : String → Document → Rat
  unreachable : Bool := false

/-- Whether a document passes the optional Chroma `where`-style equality
filter `{"domain": d}`. -/
def matchesFilter (filt : Option String) (d : Document) : Bool :=
  match filt with
  | none => true
  | some dom => d.metadata.domain = some dom

/-- Model of Chroma's `similarity_search_with_score`: fail when the index is
unreachable, otherwise rank the documents passing the filter by ascending
distance and keep the first `k`. -/
def similaritySearchWithScore (vs : ChromaModel) (query : String) (k : Nat)
    (filt : Option String) : Except Unit (List (Document × Rat)) :=
  if vs.unreachable then .error ()
  else
    .ok ((((vs.docs.filter (matchesFilter filt)).map
      (fun d => (d, vs.dist query d))).mergeSort (fun a b => a.2 ≤ b.2)).take k)

/-- The optional domain filter built by `similarity_with_scores` (`rag.py`):
`if domain and domain != "none"`, i.e. only a non-empty (truthy) domain
other than the sentinel produces a filter. -/
def domainFilter (domain : String) : Option String :=
  if domain ≠ "" ∧ domain ≠ "none" then some domain else none

/-- Embedding of `similarity_with_scores` (`rag.py`): search with the
optional domain filter, falling back to the empty list when the underlying
search raises (empty or unreachable index, or failed filter). -/
def similarity_with_scores (vs : ChromaModel) (query : String) (k : Nat)
    (domain : String) : List (Document × Rat) :=
  match similaritySearchWithScore vs query k (domainFilter domain) with
  | .error _ => []
  | .ok r => r

/-- Embedding of the `retrieve_docs` node (`graph.py`): read the domain from
`plugin_mode` (default "none"), search, store documents and scores, and
append an "ok" trace entry. -/
def retrieve_docs (settings : Settings) (vs : ChromaModel) (state : SMEState) :
    SMEState :=
  let question := state.question
  let domain := state.plugin_mode.getD "none"
  let results := similarity_with_scores vs question settings.top_k domain
  let docs := results.map Prod.fst
  let scores := results.map Prod.snd
  let detail :=
    if domain ≠ "none" then
      "Retrieved " ++ toString docs.length ++ " chunks from " ++ domain ++ " corpus"
    else
      "Retrieved " ++ toString docs.length ++ " chunks"
  append_step { state with retrieved_docs := some docs, scores := some scores }
    "retrieve_docs" "ok" detail

/-- Embedding of the `verify_context` node (`graph.py`): reject when no
scores were retrieved, otherwise accept exactly when the best (first)
distance is at most the similarity threshold; append a trace entry whose
status is "ok" on accept and "rejected" otherwise. -/
def verify_context (settings : Settings) (state : SMEState) : SMEState :=
  match state.scores.getD [] with
  | [] =>
    append_step { state with context_ok := some false }
      "verify_context" "rejected" "No chunks retrieved from vector store."
  | best :: _ =>
    let threshold := settings.similarity_threshold
    let ok : Bool := best ≤ threshold
    append_step { state with context_ok := some ok }
      "verify_context" (if ok then "ok" else "rejected")
      ("Best distance " ++ toString best ++ " vs threshold " ++ toString threshold
        ++ " -> context_ok=" ++ toString ok)

/-- Model of the generation collaborator (`llm.invoke`): a function from the
system message and the user message to the answer text. -/
def LLM := String → String → String

/-- The refusal answer built on the reject path of `format_output`
(`graph.py`), naming `domain_name`. -/
def refusalAnswer (domain_name : String) : String :=
  "I cannot safely answer this from the current knowledge base. "
    ++ "The retrieved '" ++ domain_name ++ "' documents do not contain a clearly relevant "
    ++ "section for your question. Please provide additional or more specific "
    ++ "source documents."

/-- One context block of the accept path of `format_output` (`graph.py`),
for the document at 1-based index `idx`. -/
def contextBlock (idx : Nat) (doc : Document) : String :=
  let md := doc.metadata
  let doc_name := orElseStr md.doc_name (orElseStr md.source ("Doc-" ++ toString idx))
  let page_number := orElseStr md.page_number (orElseStr md.page "?")
  "[" ++ toString idx ++ "] " ++ doc_name ++ " (Page " ++ page_number ++ "):\n"
    ++ doc.page_content

/-- The system message of the accept path of `format_output` (`graph.py`). -/
def systemMsg : String :=
  "You are SME-Plug, a cybersecurity compliance expert assistant. "
    ++ "You must answer ONLY using the provided context from official documents "
    ++ "(ISO-27001, NIST, SOC2, etc.). If the context is insufficient, explicitly say "
    ++ "you cannot answer from the available documents.\n\n"
    ++ "Every substantive statement MUST be grounded in the context and accompanied "
    ++ "by a citation in the form [Source: DocName, Page X]. Do not invent citations."

/-- The user message of the accept path of `format_output` (`graph.py`). -/
def userMsg (question context_text : String) : String :=
  "User question:\n" ++ question ++ "\n\n"
    ++ "Relevant context from your knowledge base:\n"
    ++ context_text ++ "\n\n"
    ++ "Answer using only this context. Be concise but precise, and attach citations "
    ++ "for each key claim."

/-- Embedding of the `format_output` node (`graph.py`). The returned number
counts the invocations of the generation collaborator in this call: the
reject branch (taken when `context_ok` is absent or falsy) returns the
refusal answer with empty citations, appends a "skipped_llm" trace entry
and performs zero invocations; the accept branch builds the prompt, invokes
the collaborator once and stores the computed citations. -/
def format_output (llm : LLM) (state : SMEState) : SMEState × Nat :=
  let question := state.question
  let docs := state.retrieved_docs.getD []
  let context_ok := state.context_ok.getD false
  if context_ok = false then
    let domain_name := state.plugin_mode.getD "domain-specific"
    let answer := refusalAnswer domain_name
    (append_step { state with answer := some answer, citations := some [] }
      "format_output" "skipped_llm"
      "Context rejected, returned safe fallback without LLM call.", 0)
  else
    let context_blocks := (docs.enumFrom 1).map (fun p => contextBlock p.1 p.2)
    let context_text := String.intercalate "\n\n---\n\n" context_blocks
    let answer := llm systemMsg (userMsg question context_text)
    let citations := compute_citations docs
    (append_step { state with answer := some answer, citations := some citations }
      "format_output" "ok" "LLM generated answer using retrieved context.", 1)

/-- The compiled LangGraph state machine of `make_graph` (`graph.py`): the
unconditional linear sequence retrieve_docs → verify_context →
format_output, threading the shared state; paired with the number of
generation-collaborator invocations of the run. -/
def graph_invoke (settings : Settings) (vs : ChromaModel) (llm : LLM)
    (state : SMEState) : SMEState × Nat :=
  format_output llm (verify_context settings (retrieve_docs settings vs state))

/-- An HTTP error raised by the endpoint (`fastapi.HTTPException`). -/
structure HTTPError where
  status_code : Nat
  detail : String
  deriving Repr, DecidableEq

/-- The `AskResponse` returned by `ask_expert` (`main.py`). -/
structure AskResponse where
  answer : String
  citations : List String
  steps : List Step
  deriving Repr, DecidableEq

/-- The pydantic `AskRequest` (`main.py`): a question plus the plugin
(domain) name. -/
structure AskRequest where
  question : String
  plugin : String
  deriving Repr, DecidableEq

/-- Parsing a request body into an `AskRequest`: the `plugin` field defaults
to the sentinel "none" when absent (`Field(default="none")`, `main.py`). -/
def parseAskRequest (question : String) (plugin : Option String) : AskRequest :=
  { question := question, plugin := plugin.getD "none" }

/-- The initial graph state built by Branch B of `ask_expert` (`main.py`):
the question, the plugin name under `plugin_mode`, and an empty trace. -/
def initialState (payload : AskRequest) : SMEState :=
  { question := payload.question
    plugin_mode := some payload.plugin
    steps := some [] }

/-- Embedding of Branch B of `ask_expert` (`main.py`): invoke the graph on
the initial state — modelled as an `Except` whose error carries the raw
upstream exception text — translating any failure into a fixed 500 detail,
and a missing answer into an internal error; otherwise repackage answer,
citations and trace. -/
def ask_expert_rag (invokeGraph : SMEState → Except String SMEState)
    (payload : AskRequest) : Except HTTPError AskResponse :=
  match invokeGraph (initialState payload) with
  | .error _ =>
    .error ⟨500, "The SME-Plug backend failed while processing this question."⟩
  | .ok result =>
    match result.answer with
    | none => .error ⟨500, "Internal Error: graph returned no answer."⟩
    | some ans => .ok ⟨ans, result.citations.getD [], result.steps.getD []⟩

/-! Helper lemmas: when retrieval comes back empty, and what each returned
pair of a filtered search satisfies. -/

theorem sws_nil_of_unreachable (vs : ChromaModel) (query : String) (k : Nat)
    (domain : String) (h : vs.unreachable = true) :
    similarity_with_scores vs query k domain = [] := by
  simp [similarity_with_scores, similaritySearchWithScore, h]

theorem sws_nil_of_empty_docs (vs : ChromaModel) (query : String) (k : Nat)
    (domain : String) (h : vs.docs = []) :
    similarity_with_scores vs query k domain = [] := by
  unfold similarity_with_scores similaritySearchWithScore
  cases hu : vs.unreachable <;> simp [h, hu]

theorem sws_nil_of_no_match (vs : ChromaModel) (query : String) (k : Nat)
    (domain f : String) (hf : domainFilter domain = some f)
    (h : ∀ doc ∈ vs.docs, doc.metadata.domain ≠ some f) :
    similarity_with_scores vs query k domain = [] := by
  unfold similarity_with_scores similaritySearchWithScore
  have hfilter : vs.docs.filter (matchesFilter (domainFilter domain)) = [] := by
    rw [hf]
    refine List.filter_eq_nil_iff.mpr ?_
    intro doc hdoc
    simp only [matchesFilter, decide_eq_true_eq]
    exact h doc hdoc
  cases hu : vs.unreachable <;> simp [hu, hfilter]

theorem mem_sws_domain (vs : ChromaModel) (query : String) (k : Nat)
    (domain f : String) (hf : domainFilter domain = some f) :
    ∀ p ∈ similarity_with_scores vs query k domain,
      p.1.metadata.domain = some f := by
  intro p hp
  unfold similarity_with_scores similaritySearchWithScore at hp
  cases hu : vs.unreachable with
  | true => simp [hu] at hp
  | false =>
    simp only [hu, if_neg, Bool.false_eq_true, not_false_iff] at hp
    have hp2 := List.mem_of_mem_take hp
    rw [List.mem_mergeSort] at hp2
    obtain ⟨d, hd, hpd⟩ := List.mem_map.mp hp2
    obtain ⟨_, hmatch⟩ := List.mem_filter.mp hd
    rw [hf] at hmatch
    simp only [matchesFilter, decide_eq_true_eq] at hmatch
    rw [← hpd]
    exact hmatch

theorem graph_invoke_empty_retrieval (settings : Settings) (vs : ChromaModel)
    (llm : LLM) (s : SMEState)
    (h : similarity_with_scores vs s.question settings.top_k
      (s.plugin_mode.getD "none") = []) :
    (graph_invoke settings vs llm s).1.context_ok = some false
  ∧ (graph_invoke settings vs llm s).1.answer
      = some (refusalAnswer (s.plugin_mode.getD "domain-specific"))
  ∧ (graph_invoke settings vs llm s).1.citations = some []
  ∧ (∃ prev, (graph_invoke settings vs llm s).1.steps = some (prev ++
      [⟨"format_output", "skipped_llm",
        "Context rejected, returned safe fallback without LLM call."⟩]))
  ∧ (graph_invoke settings vs llm s).2 = 0 := by
  simp only [graph_invoke, retrieve_docs, h, List.map_nil, verify_context,
    append_step, Option.getD_some, format_output]
  refine ⟨rfl, rfl, rfl, ⟨_, rfl⟩, rfl⟩

theorem graph_invoke_steps (settings : Settings) (vs : ChromaModel)
    (llm : LLM) (s : SMEState) :
    ((graph_invoke settings vs llm s).1.steps.getD []).map Step.node
      = (s.steps.getD []).map Step.node
        ++ ["retrieve_docs", "verify_context", "format_output"] := by
  cases hr : similarity_with_scores vs s.question settings.top_k
      (s.plugin_mode.getD "none") with
  | nil =>
    simp [graph_invoke, retrieve_docs, hr, verify_context, format_output, append_step]
  | cons p rest =>
    simp only [graph_invoke, retrieve_docs, hr, List.map_cons, verify_context,
      append_step, Option.getD_some, format_output]
    split <;> simp

/-! Concrete objects for witnesses and counterexamples. -/

/-- A chunk of ISO 27001 page 12, tagged with domain "Cyber". -/
def docCyber : Document :=
  { page_content := "Access control policy text."
    metadata := { doc_name := some "ISO_27001", page_number := some "12",
                  domain := some "Cyber" } }

/-- A duplicate chunk: same document name and page as `docCyber`. -/
def docCyberDup : Document :=
  { page_content := "More access control text."
    metadata := { doc_name := some "ISO_27001", page_number := some "12",
                  domain := some "Cyber" } }

/-- A chunk with no `doc_name` and no page metadata: citations must fall
back to the path stem and "?". -/
def docFallback : Document :=
  { page_content := "NIST control text."
    metadata := { source := some "corpus/NIST.SP.800-53.pdf" } }

/-- A store holding just `docCyber`, at distance 1/2 from every query. -/
def storeCyber : ChromaModel :=
  { docs := [docCyber], dist := fun _ _ => 1/2, unreachable := false }

/-- A store with no documents. -/
def storeEmpty : ChromaModel :=
  { docs := [], dist := fun _ _ => 0, unreachable := false }

/-- An unreachable store: every search raises. -/
def storeDown : ChromaModel :=
  { docs := [docCyber], dist := fun _ _ => 0, unreachable := true }

/-- A chunk tagged with domain "A" at distance 0, in a one-chunk store. -/
def docTagA : Document :=
  { page_content := "alpha", metadata := { domain := some "A" } }

/-- A store holding just `docTagA`. -/
def storeTagA : ChromaModel :=
  { docs := [docTagA], dist := fun _ _ => 0, unreachable := false }

/-- An initial state for a "Cyber" question with an empty trace. -/
def stateCyber : SMEState :=
  { question := "What does ISO 27001 say about access control?"
    plugin_mode := some "Cyber"
    steps := some [] }

/-- A deterministic model of the generation collaborator. -/
def llmConst : LLM := fun _ _ => "grounded answer"

/-- C1: for every run whose retrieval returns a non-empty ranked sequence,
the Verification Stage sets `context_ok` to true exactly when the distance
of the first retrieved chunk is at most the configured similarity
threshold (`best <= threshold`, so the boundary `best = threshold`
accepts — witnessed below at the default threshold 1/2). -/
theorem claim_verify_threshold (settings : Settings) (vs : ChromaModel)
    (s : SMEState) (d0 : Document) (dist0 : Rat) (rest : List (Document × Rat))
    (h : similarity_with_scores vs s.question settings.top_k
      (s.plugin_mode.getD "none") = (d0, dist0) :: rest) :
    (verify_context settings (retrieve_docs settings vs s)).context_ok
      = some (decide (dist0 ≤ settings.similarity_threshold)) := by
  simp only [retrieve_docs, h, List.map_cons, verify_context, append_step,
    Option.getD_some]

theorem claim_verify_threshold_witness :
    (verify_context {} (retrieve_docs {} storeCyber stateCyber)).context_ok
      = some true := by
  have h : similarity_with_scores storeCyber stateCyber.question
      ({} : Settings).top_k (stateCyber.plugin_mode.getD "none")
        = (docCyber, 1/2) :: [] := by
    simp [similarity_with_scores, similaritySearchWithScore, storeCyber,
      domainFilter, matchesFilter, docCyber, stateCyber]
  rw [claim_verify_threshold {} storeCyber stateCyber docCyber (1/2) [] h]
  simp

/-- C2: for every run in which retrieval returns the empty sequence, the
pipeline sets `context_ok` to false, answers with the refusal message,
returns empty citations, appends a compose trace entry with status
"skipped_llm", and performs zero generation-collaborator invocations. -/
theorem claim_empty_retrieval_reject (settings : Settings) (vs : ChromaModel)
    (llm : LLM) (s : SMEState)
    (h : similarity_with_scores vs s.question settings.top_k
      (s.plugin_mode.getD "none") = []) :
    (graph_invoke settings vs llm s).1.context_ok = some false
  ∧ (graph_invoke settings vs llm s).1.answer
      = some (refusalAnswer (s.plugin_mode.getD "domain-specific"))
  ∧ (graph_invoke settings vs llm s).1.citations = some []
  ∧ (∃ prev, (graph_invoke settings vs llm s).1.steps = some (prev ++
      [⟨"format_output", "skipped_llm",
        "Context rejected, returned safe fallback without LLM call."⟩]))
  ∧ (graph_invoke settings vs llm s).2 = 0 :=
  graph_invoke_empty_retrieval settings vs llm s h

theorem claim_empty_retrieval_reject_witness :
    (graph_invoke {} storeEmpty llmConst stateCyber).1.context_ok = some false
  ∧ (graph_invoke {} storeEmpty llmConst stateCyber).1.citations = some []
  ∧ (graph_invoke {} storeEmpty llmConst stateCyber).2 = 0 := by
  have h : similarity_with_scores storeEmpty stateCyber.question
      ({} : Settings).top_k (stateCyber.plugin_mode.getD "none") = [] := by
    simp [similarity_with_scores, similaritySearchWithScore, storeEmpty]
  exact ⟨(claim_empty_retrieval_reject {} storeEmpty llmConst stateCyber h).1,
    (claim_empty_retrieval_reject {} storeEmpty llmConst stateCyber h).2.2.1,
    (claim_empty_retrieval_reject {} storeEmpty llmConst stateCyber h).2.2.2.2⟩

/-- C4: the citation list is deduplicated in first-seen order over the
ranked chunks (it equals the library first-occurrence dedup of the labels
and has no duplicates), every element is the label of some retrieved chunk
and has the exact bracket form, a missing `doc_name` falls back to the
path-derived stem of `source` (path defaulting to "Unknown"), and missing
page metadata falls back to "?". -/
theorem claim_citations (docs : List Document) :
    (compute_citations docs).Nodup
  ∧ compute_citations docs = (docs.map citationLabel).eraseDups
  ∧ (∀ s ∈ compute_citations docs, ∃ d ∈ docs, s = citationLabel d)
  ∧ (∀ d : Document, ∃ n p, citationLabel d
      = "[Source: " ++ n ++ ", Page " ++ p ++ "]")
  ∧ (∀ d : Document, d.metadata.doc_name = none →
      citationLabel d
        = "[Source: " ++ pathStem (d.metadata.source.getD "Unknown")
          ++ ", Page "
          ++ orElseStr d.metadata.page_number (orElseStr d.metadata.page "?")
          ++ "]")
  ∧ (∀ d : Document, d.metadata.page_number = none → d.metadata.page = none →
      ∃ n, citationLabel d = "[Source: " ++ n ++ ", Page " ++ "?" ++ "]") := by
  refine ⟨(compute_citations_go_spec docs []).2,
    compute_citations_eq_eraseDups docs,
    fun s hs => mem_compute_citations_go docs [] hs, ?_, ?_, ?_⟩
  · intro d
    exact ⟨_, _, rfl⟩
  · intro d hd
    simp [citationLabel, orElseStr, hd]
  · intro d h1 h2
    refine ⟨orElseStr d.metadata.doc_name
      (pathStem (d.metadata.source.getD "Unknown")), ?_⟩
    simp [citationLabel, orElseStr, h1, h2]

theorem claim_citations_witness :
    compute_citations [docCyber, docCyberDup, docFallback]
      = ["[Source: ISO_27001, Page 12]", "[Source: NIST.SP.800-53, Page ?]"]
  ∧ (compute_citations [docCyber, docCyberDup, docFallback]).Nodup :=
  ⟨by decide, (claim_citations [docCyber, docCyberDup, docFallback]).1⟩

/-- C5: every run started with an empty trace terminates with exactly three
trace entries, in order retrieve_docs, verify_context, format_output,
whatever store, collaborator and outcome. -/
theorem claim_trace_three (settings : Settings) (vs : ChromaModel) (llm : LLM)
    (s : SMEState) (h : s.steps.getD [] = []) :
    ((graph_invoke settings vs llm s).1.steps.getD []).map Step.node
      = ["retrieve_docs", "verify_context", "format_output"]
  ∧ ((graph_invoke settings vs llm s).1.steps.getD []).length = 3 := by
  have hmap : ((graph_invoke settings vs llm s).1.steps.getD []).map Step.node
      = ["retrieve_docs", "verify_context", "format_output"] := by
    rw [graph_invoke_steps, h]
    simp
  refine ⟨hmap, ?_⟩
  have hlen := congrArg List.length hmap
  simpa using hlen

theorem claim_trace_three_witness :
    ((graph_invoke {} storeCyber llmConst stateCyber).1.steps.getD []).map
        Step.node
      = ["retrieve_docs", "verify_context", "format_output"] :=
  (claim_trace_three {} storeCyber llmConst stateCyber rfl).1

/-- C3 counterexample: the empty string differs from the sentinel "none",
yet `similarity_with_scores` applies no filter for it (the code tests
`if domain and domain != "none"`, and `""` is falsy): the search over a
store whose only chunk is tagged "A" returns that chunk although its
domain tag differs from the requested domain `""`. -/
theorem claim_domain_filter_cex :
    ("" : String) ≠ "none"
  ∧ domainFilter "" = none
  ∧ similarity_with_scores storeTagA "q" 5 "" = [(docTagA, 0)]
  ∧ docTagA.metadata.domain ≠ some "" := by
  refine ⟨by decide, rfl, ?_, by decide⟩
  simp [similarity_with_scores, similaritySearchWithScore, storeTagA,
    domainFilter, matchesFilter]

/-- C3 amended: for every query whose requested domain is truthy (non-empty)
and differs from the sentinel "none", the index search is restricted by the
equality filter on `metadata.domain == domain`, so every returned chunk
carries exactly that domain tag; the sentinel "none" — like a falsy
domain — yields no filter, so "none" is never used as a literal tag. -/
theorem claim_domain_filter_amended (vs : ChromaModel) (query : String)
    (k : Nat) (domain : String) (h : domain ≠ "" ∧ domain ≠ "none") :
    domainFilter domain = some domain
  ∧ (∀ p ∈ similarity_with_scores vs query k domain,
      p.1.metadata.domain = some domain)
  ∧ domainFilter "none" = none
  ∧ domainFilter "" = none := by
  have hf : domainFilter domain = some domain := by
    simp [domainFilter, h.1, h.2]
  exact ⟨hf, mem_sws_domain vs query k domain domain hf, rfl, rfl⟩

theorem claim_domain_filter_amended_witness :
    domainFilter "Cyber" = some "Cyber"
  ∧ similarity_with_scores storeCyber "q" 5 "Cyber" = [(docCyber, 1/2)]
  ∧ docCyber.metadata.domain = some "Cyber" := by
  have hsws : similarity_with_scores storeCyber "q" 5 "Cyber"
      = [(docCyber, 1/2)] := by
    simp [similarity_with_scores, similaritySearchWithScore, storeCyber,
      domainFilter, matchesFilter, docCyber]
  refine ⟨(claim_domain_filter_amended storeCyber "q" 5 "Cyber" (by decide)).1,
    hsws,
    (claim_domain_filter_amended storeCyber "q" 5 "Cyber" (by decide)).2.1
      (docCyber, 1/2) (by rw [hsws]; exact List.mem_singleton_self _)⟩

/-- C6: when the index is unreachable, holds no documents, or the applied
domain filter matches no document, retrieval returns the empty sequence
(no error is raised — the fallback clause of `similarity_with_scores`)
and Verification consumes it as a valid no-evidence outcome, setting
`context_ok` to false. -/
theorem claim_no_evidence (settings : Settings) (vs : ChromaModel)
    (s : SMEState)
    (h : vs.unreachable = true ∨ vs.docs = [] ∨
      ∃ f, domainFilter (s.plugin_mode.getD "none") = some f ∧
        ∀ doc ∈ vs.docs, doc.metadata.domain ≠ some f) :
    similarity_with_scores vs s.question settings.top_k
        (s.plugin_mode.getD "none") = []
  ∧ (retrieve_docs settings vs s).retrieved_docs = some []
  ∧ (retrieve_docs settings vs s).scores = some []
  ∧ (verify_context settings (retrieve_docs settings vs s)).context_ok
      = some false := by
  have hnil : similarity_with_scores vs s.question settings.top_k
      (s.plugin_mode.getD "none") = [] := by
    rcases h with h | h | ⟨f, hf, hnm⟩
    · exact sws_nil_of_unreachable vs s.question settings.top_k _ h
    · exact sws_nil_of_empty_docs vs s.question settings.top_k _ h
    · exact sws_nil_of_no_match vs s.question settings.top_k _ f hf hnm
  refine ⟨hnil, ?_, ?_, ?_⟩
  · simp [retrieve_docs, hnil, append_step]
  · simp [retrieve_docs, hnil, append_step]
  · simp [retrieve_docs, hnil, append_step, verify_context]

theorem claim_no_evidence_witness :
    similarity_with_scores storeDown stateCyber.question
        ({} : Settings).top_k (stateCyber.plugin_mode.getD "none") = []
  ∧ (verify_context {} (retrieve_docs {} storeDown stateCyber)).context_ok
      = some false :=
  ⟨(claim_no_evidence {} storeDown stateCyber (Or.inl rfl)).1,
   (claim_no_evidence {} storeDown stateCyber (Or.inl rfl)).2.2.2⟩

/-- A rejected state whose domain is the literal sentinel "none". -/
def stateNoneReject : SMEState :=
  { question := "q", plugin_mode := some "none", context_ok := some false,
    steps := some [] }

set_option maxRecDepth 8192 in
/-- C7 counterexample: on the reject path with the sentinel domain "none",
the composed refusal names the literal string 'none' — it does not use a
generic phrase; the generic fallback "domain-specific" is substituted only
when the state has no `plugin_mode` key at all. -/
theorem claim_refusal_domain_cex :
    (format_output llmConst stateNoneReject).1.answer
      = some (refusalAnswer "none")
  ∧ refusalAnswer "none"
      = "I cannot safely answer this from the current knowledge base. The retrieved 'none' documents do not contain a clearly relevant section for your question. Please provide additional or more specific source documents."
  ∧ refusalAnswer "none" ≠ refusalAnswer "domain-specific" := by
  refine ⟨?_, by decide, by decide⟩
  simp [format_output, append_step, stateNoneReject]

/-- C7 amended: on the reject path the Answer-Composition Stage returns the
fixed-shape refusal naming the state's `plugin_mode` verbatim — including
the literal "none" when that is the stored domain — and substitutes the
generic phrase "domain-specific" only when the state carries no
`plugin_mode` field. -/
theorem claim_refusal_domain_amended (llm : LLM) (s : SMEState)
    (h : s.context_ok.getD false = false) :
    (format_output llm s).1.answer
      = some (refusalAnswer (s.plugin_mode.getD "domain-specific"))
  ∧ (s.plugin_mode = none →
      (format_output llm s).1.answer
        = some (refusalAnswer "domain-specific"))
  ∧ (∀ d : String, s.plugin_mode = some d →
      (format_output llm s).1.answer = some (refusalAnswer d)) := by
  have h1 : (format_output llm s).1.answer
      = some (refusalAnswer (s.plugin_mode.getD "domain-specific")) := by
    simp [format_output, append_step, h]
  refine ⟨h1, ?_, ?_⟩
  · intro hp
    rw [h1, hp]
    rfl
  · intro d hp
    rw [h1, hp]
    rfl

/-- A rejected state in domain "Cyber". -/
def stateCyberReject : SMEState :=
  { question := "q", plugin_mode := some "Cyber", context_ok := some false,
    steps := some [] }

theorem claim_refusal_domain_amended_witness :
    (format_output llmConst stateCyberReject).1.answer
      = some (refusalAnswer "Cyber") :=
  (claim_refusal_domain_amended llmConst stateCyberReject rfl).2.2 "Cyber" rfl

/-- C8: whenever the graph invocation fails with an upstream exception, the
caller receives the fixed 500 detail of `ask_expert` — a constant string,
independent of the exception text, so the raw upstream error text never
reaches the user-facing detail. -/
theorem claim_error_translation
    (invokeGraph : SMEState → Except String SMEState)
    (payload : AskRequest) (exc : String)
    (h : invokeGraph (initialState payload) = .error exc) :
    ask_expert_rag invokeGraph payload
      = .error ⟨500,
          "The SME-Plug backend failed while processing this question."⟩ := by
  simp [ask_expert_rag, h]

theorem claim_error_translation_witness :
    ask_expert_rag (fun _ => .error "ConnectionError: upstream model timed out")
        (parseAskRequest "q" (some "Cyber"))
      = .error ⟨500,
          "The SME-Plug backend failed while processing this question."⟩ :=
  claim_error_translation (fun _ => .error "ConnectionError: upstream model timed out")
    (parseAskRequest "q" (some "Cyber"))
    "ConnectionError: upstream model timed out" rfl

/-- C9: a request body without the domain field parses to the sentinel
"none"; and a request naming a (truthy, non-sentinel) domain matching no
indexed chunk is answered by the normal empty-retrieval reject — an `ok`
response carrying the refusal answer and empty citations — not by an
error. -/
theorem claim_domain_boundary (settings : Settings) (vs : ChromaModel)
    (llm : LLM) (q D : String) (hD : D ≠ "" ∧ D ≠ "none")
    (hnm : ∀ doc ∈ vs.docs, doc.metadata.domain ≠ some D) :
    (parseAskRequest q none).plugin = "none"
  ∧ ask_expert_rag (fun st => .ok (graph_invoke settings vs llm st).1)
        (parseAskRequest q (some D))
      = .ok ⟨refusalAnswer D, [],
          (graph_invoke settings vs llm
            (initialState (parseAskRequest q (some D)))).1.steps.getD []⟩ := by
  refine ⟨rfl, ?_⟩
  have hf : domainFilter D = some D := by
    simp [domainFilter, hD.1, hD.2]
  have hnil : similarity_with_scores vs
      (initialState (parseAskRequest q (some D))).question settings.top_k
      ((initialState (parseAskRequest q (some D))).plugin_mode.getD "none")
        = [] :=
    sws_nil_of_no_match vs _ settings.top_k _ D hf hnm
  obtain ⟨hok, hans, hcit, hsteps, hcalls⟩ :=
    graph_invoke_empty_retrieval settings vs llm
      (initialState (parseAskRequest q (some D))) hnil
  have hans2 : (graph_invoke settings vs llm
      (initialState (parseAskRequest q (some D)))).1.answer
        = some (refusalAnswer D) := hans
  simp [ask_expert_rag, hans2, hcit]

theorem claim_domain_boundary_witness :
    (parseAskRequest "q" none).plugin = "none"
  ∧ ask_expert_rag (fun st => .ok (graph_invoke {} storeTagA llmConst st).1)
        (parseAskRequest "q" (some "Cyber"))
      = .ok ⟨refusalAnswer "Cyber", [],
          (graph_invoke {} storeTagA llmConst
            (initialState (parseAskRequest "q" (some "Cyber")))).1.steps.getD []⟩ :=
  claim_domain_boundary {} storeTagA llmConst "q" "Cyber" (by decide) (by decide)

/-- C10: when the compose stage runs on a state whose `context_ok` field was
never written, it takes the reject path exactly as for an explicit false:
refusal answer, empty citations, a trace identical to the explicit-reject
run, and zero generation-collaborator invocations. -/
theorem claim_compose_default_reject (llm : LLM) (s : SMEState)
    (h : s.context_ok = none) :
    (format_output llm s).1.answer
      = some (refusalAnswer (s.plugin_mode.getD "domain-specific"))
  ∧ (format_output llm s).1.citations = some []
  ∧ (format_output llm s).2 = 0
  ∧ (format_output llm s).1.answer
      = (format_output llm { s with context_ok := some false }).1.answer
  ∧ (format_output llm s).1.citations
      = (format_output llm { s with context_ok := some false }).1.citations
  ∧ (format_output llm s).1.steps
      = (format_output llm { s with context_ok := some false }).1.steps
  ∧ (format_output llm s).2
      = (format_output llm { s with context_ok := some false }).2 := by
  simp [format_output, append_step, h]

/-- A state reaching compose with retrieved documents but no verification
verdict. -/
def stateNoVerdict : SMEState :=
  { question := "q", plugin_mode := some "Cyber",
    retrieved_docs := some [docCyber], steps := some [] }

theorem claim_compose_default_reject_witness :
    (format_output llmConst stateNoVerdict).1.answer
      = some (refusalAnswer "Cyber")
  ∧ (format_output llmConst stateNoVerdict).2 = 0 :=
  ⟨(claim_compose_default_reject llmConst stateNoVerdict rfl).1,
   (claim_compose_default_reject llmConst stateNoVerdict rfl).2.2.1⟩

end SMEPlug
